import Mathlib

/-!
Shallow embedding of the go-keychain repository (files `corefoundation.go` and
`keychain.go`) for checking the repository's natural-language specification.

Modelling conventions:
* Core Foundation values (`CFTypeRef`) are modelled by the inductive `CFType`:
  a type-tagged tree of strings, byte buffers, numbers, booleans, arrays,
  dictionaries, dates and opaque named constants (`konst`, used for the
  `kSec...` sentinel references that the code only passes through).
* A `CFNumberRef` carries its declared `CFNumberType` subtype together with its
  stored payload, modelled abstractly as an `Int` (`CFNumberGetValue` called
  with the declared subtype reads the payload back exactly).
* Go `[]byte` is `List UInt8` when only the byte content matters, and
  `GoBytes := Option (List UInt8)` where the code distinguishes a nil slice
  from a non-nil slice (`SetData`, `QueryResult.Data`).
* Go `(T, error)` returns become `Except` (the Go code returns the zero value
  of `T` together with a non-nil error on every error path, so no information
  is lost); functions returning only `error` become `Option KError`.
* The external Security-framework calls (`SecItemCopyMatching`,
  `SecItemUpdate`, `SecItemDelete`) are opaque collaborators: their outcome
  (an `OSStatus` code, plus a result reference for queries) is passed to the
  embedded functions as an explicit argument.
* The explicit Go statement `panic("Unknown CFNumber type")` in
  `CFNumberToInterface` is modelled by `Option` / by the dedicated error
  constructor `KError.panicked`, kept distinct from ordinary returned errors.
-/

/-- Go `[]byte`: `none` models a nil slice, `some l` a non-nil slice with
content `l`. -/
def GoBytes : Type := Option (List UInt8)

/-- Go `time.Time`, modelled abstractly as an integer timestamp. -/
def GoTime : Type := Int

/-- The declared subtype of a `CFNumberRef`, mirroring the `kCFNumber...Type`
constants of Core Foundation.  `kCGFloat` exists in the external API but has no
case in the source's `CFNumberToInterface` switch. -/
inductive CFNumberType where
  | kSInt8
  | kSInt16
  | kSInt32
  | kSInt64
  | kFloat32
  | kFloat64
  | kChar
  | kShort
  | kInt
  | kLong
  | kLongLong
  | kFloat
  | kDouble
  | kCFIndex
  | kNSInteger
  | kCGFloat
  deriving DecidableEq

/-- A Core Foundation value (`C.CFTypeRef`), type-tagged as the real object
model is.  `konst` models the opaque `kSec...` constant references that the
code stores in attribute maps and passes through unconverted. -/
inductive CFType where
  | string (s : String)
  | data (b : List UInt8)
  | number (ty : CFNumberType) (val : Int)
  | boolean (b : Bool)
  | array (elems : List CFType)
  | dict (entries : List (CFType × CFType))
  | date (t : GoTime)
  | konst (name : String)

/-- The runtime type tag returned by `CFGetTypeID`. -/
inductive CFTypeID where
  | stringID
  | dataID
  | numberID
  | boolID
  | arrayID
  | dictID
  | dateID
  | konstID
  deriving DecidableEq

/-- `C.CFGetTypeID`: the runtime type tag of a value. -/
def CFGetTypeID : CFType → CFTypeID
  | .string _ => .stringID
  | .data _ => .dataID
  | .number _ _ => .numberID
  | .boolean _ => .boolID
  | .array _ => .arrayID
  | .dict _ => .dictID
  | .date _ => .dateID
  | .konst _ => .konstID

/-- `CFTypeDescription` (corefoundation.go): a human-readable description of a
value's runtime type. -/
def CFTypeDescription : CFType → String
  | .string _ => "CFString"
  | .data _ => "CFData"
  | .number _ _ => "CFNumber"
  | .boolean _ => "CFBoolean"
  | .array _ => "CFArray"
  | .dict _ => "CFDictionary"
  | .date _ => "CFDate"
  | .konst n => n

/-- `true` exactly on dictionary values (the `elementTypeID ==
C.CFDictionaryGetTypeID()` test of `QueryItem`). -/
def isDictB : CFType → Bool
  | .dict _ => true
  | _ => false

/-- A Go dynamic value (`interface{}`) as produced by the numeric decoder
`CFNumberToInterface`: one constructor per native Go type the decoder can
return, payload modelled as `Int`. -/
inductive GoValue where
  | int8V (v : Int)
  | int16V (v : Int)
  | int32V (v : Int)
  | int64V (v : Int)
  | intV (v : Int)
  | byteV (v : Int)
  | float32V (v : Int)
  | float64V (v : Int)
  deriving DecidableEq

/-- The Go type name of a `GoValue`, as `fmt.Errorf("... got %T", val)`
prints it. -/
def goTypeName : GoValue → String
  | .int8V _ => "int8"
  | .int16V _ => "int16"
  | .int32V _ => "int32"
  | .int64V _ => "int64"
  | .intV _ => "int"
  | .byteV _ => "uint8"
  | .float32V _ => "float32"
  | .float64V _ => "float64"

/-- `true` exactly on the `int32` branch (the `val.(int32)` type assertion of
`convertResult`). -/
def isInt32G : GoValue → Bool
  | .int32V _ => true
  | _ => false

/-- `math.MaxUint32`, the size bound checked by `BytesToCFData` and
`StringToCFString`. -/
def maxUInt32 : Nat := 4294967295

/-- `BytesToCFData` (corefoundation.go): rejects inputs longer than
`math.MaxUint32`, otherwise produces a `CFData` with exactly the input bytes
(a zero-length input yields an empty buffer, not a null reference). -/
def BytesToCFData (b : List UInt8) : Except String CFType :=
  if b.length > maxUInt32 then .error "data is too large"
  else .ok (.data b)

/-- `CFDataToBytes` (corefoundation.go): reads the byte content back out of a
`CFData`.  The Go function's error result is always nil; applying it to a
non-data reference is a C-level type violation, modelled by returning `[]`. -/
def CFDataToBytes : CFType → List UInt8
  | .data b => b
  | _ => []

/-- `StringToCFString` (corefoundation.go): rejects strings whose UTF-8 byte
length exceeds `math.MaxUint32`, otherwise produces a `CFString` with exactly
the input's characters.  The source's `utf8.ValidString` guard cannot fail in
this model because every Lean `String` is valid UTF-8. -/
def StringToCFString (s : String) : Except String CFType :=
  if s.utf8ByteSize > maxUInt32 then .error "string is too large"
  else .ok (.string s)

/-- `CFStringToString` (corefoundation.go): reads the character content back
out of a `CFString`.  Applying it to a non-string reference is a C-level type
violation, modelled by returning `""`. -/
def CFStringToString : CFType → String
  | .string s => s
  | _ => ""

/-- `Int32ToCFNumber` (corefoundation.go): stores an `int32` as a `CFNumber`
with declared subtype `kCFNumberSInt32Type`. -/
def Int32ToCFNumber (u : Int) : CFType :=
  .number .kSInt32 u

/-- `CFNumberToInterface` (corefoundation.go): decodes a `CFNumberRef` by
switching on its declared subtype; each recognized subtype is read with that
same subtype and re-widened to the Go type of the subtype's width.  `none`
models the source's `panic("Unknown CFNumber type")` on an unrecognized
subtype (and the undefined C cast when the reference is not a number). -/
def CFNumberToInterface : CFType → Option GoValue
  | .number ty v =>
    match ty with
    | .kSInt8 => some (.int8V v)
    | .kSInt16 => some (.int16V v)
    | .kSInt32 => some (.int32V v)
    | .kSInt64 => some (.int64V v)
    | .kFloat32 => some (.float32V v)
    | .kFloat64 => some (.float64V v)
    | .kChar => some (.byteV v)
    | .kShort => some (.int16V v)
    | .kInt => some (.int32V v)
    | .kLong => some (.intV v)
    | .kLongLong => some (.int64V v)
    | .kFloat => some (.float32V v)
    | .kDouble => some (.float64V v)
    | .kCFIndex => some (.intV v)
    | .kNSInteger => some (.intV v)
    | .kCGFloat => none
  | _ => none

/-- `CFDateToTime`.  Modelled from the spec: the repository defines this
date-specific conversion in a file that is not under `src/` ("the two
timestamp fields decode via a date-specific conversion"); it turns a `CFDate`
reference into a native timestamp. -/
def CFDateToTime : CFType → GoTime
  | .date t => t
  | _ => (0 : Int)

/-- `true` exactly on the `Except.ok` branch. -/
def isOkE {ε α : Type} : Except ε α → Bool
  | .ok _ => true
  | .error _ => false

/-- `true` exactly on the `Except.error` branch. -/
def isErrE {ε α : Type} : Except ε α → Bool
  | .ok _ => false
  | .error _ => true

/-! ## Attribute keys and the Item model (keychain.go) -/

/-- `kSecClass`, resolved at process start via `attrKey`; modelled by its
well-known platform value. -/
def SecClassKey : String := "class"

/-- `kSecAttrService`. -/
def ServiceKey : String := "svce"

/-- `kSecAttrServer`. -/
def ServerKey : String := "srvr"

/-- `kSecAttrProtocol`. -/
def ProtocolKey : String := "ptcl"

/-- `kSecAttrAuthenticationType`. -/
def AuthenticationTypeKey : String := "atyp"

/-- `kSecAttrPort`. -/
def PortKey : String := "port"

/-- `kSecAttrPath`. -/
def PathKey : String := "path"

/-- `kSecAttrLabel`. -/
def LabelKey : String := "labl"

/-- `kSecAttrAccount`. -/
def AccountKey : String := "acct"

/-- `kSecAttrAccessGroup`. -/
def AccessGroupKey : String := "agrp"

/-- `kSecValueData`. -/
def DataKey : String := "v_Data"

/-- `kSecAttrDescription`. -/
def DescriptionKey : String := "desc"

/-- `kSecAttrComment`. -/
def CommentKey : String := "icmt"

/-- `kSecAttrCreationDate`. -/
def CreationDateKey : String := "cdat"

/-- `kSecAttrModificationDate`. -/
def ModificationDateKey : String := "mdat"

/-- `kSecMatchLimit`. -/
def MatchLimitKey : String := "m_Limit"

/-- `kSecReturnData`. -/
def ReturnDataKey : String := "r_Data"

/-- A value of the `Item.attr` map: the Go code stores strings, `int32`s,
byte slices, booleans, pass-through `CFTypeRef` constants and `Convertable`
values (the latter modelled by the outcome of their `Convert()` call). -/
inductive AttrValue where
  | str (s : String)
  | int32A (n : Int)
  | bytes (b : GoBytes)
  | boolean (b : Bool)
  | cfRef (r : CFType)
  | convertable (conv : Except String CFType)

/-- Delete a key from an attribute map (Go `delete(k.attr, key)`). -/
def attrErase (m : List (String × AttrValue)) (key : String) : List (String × AttrValue) :=
  m.filter (fun p => !(p.1 == key))

/-- Store a key (Go `k.attr[key] = v`, overwriting any existing entry). -/
def attrInsert (m : List (String × AttrValue)) (key : String) (v : AttrValue) : List (String × AttrValue) :=
  (key, v) :: attrErase m key

/-- Look a key up in an attribute map. -/
def attrLookup (m : List (String × AttrValue)) (key : String) : Option AttrValue :=
  (m.find? (fun p => p.1 == key)).map (·.2)

/-- `Item` (keychain.go): a mapping from attribute keys to dynamic values,
modelled as an association list without duplicate keys (Go map semantics are
recovered through `attrInsert` / `attrErase` / `attrLookup`). -/
structure Item where
  attr : List (String × AttrValue)

/-- `NewItem`: a new empty keychain item. -/
def NewItem : Item := ⟨[]⟩

/-- `SecClass` (keychain.go). -/
inductive SecClass where
  | genericPassword
  | internetPassword
  | certificate
  | pairKey
  deriving DecidableEq

/-- `secClassTypeRef`: the external class marker for each `SecClass`. -/
def secClassTypeRef : SecClass → CFType
  | .genericPassword => .konst "kSecClassGenericPassword"
  | .internetPassword => .konst "kSecClassInternetPassword"
  | .certificate => .konst "kSecClassCertificate"
  | .pairKey => .konst "kSecClassKey"

/-- `MatchLimit` (keychain.go). -/
inductive MatchLimit where
  | matchLimitDefault
  | matchLimitOne
  | matchLimitAll
  deriving DecidableEq

/-- `matchTypeRef`: the external sentinel for each non-default `MatchLimit`
(the Go map has no entry for the default; that lookup is guarded away by
`SetMatchLimit`). -/
def matchTypeRef : MatchLimit → CFType
  | .matchLimitOne => .konst "kSecMatchLimitOne"
  | .matchLimitAll => .konst "kSecMatchLimitAll"
  | .matchLimitDefault => .konst "NULL"

/-- `Item.SetString`: store a non-empty string, delete the key on `""`. -/
def Item.SetString (k : Item) (key s : String) : Item :=
  if s ≠ "" then ⟨attrInsert k.attr key (.str s)⟩
  else ⟨attrErase k.attr key⟩

/-- `Item.SetInt32`: store a non-zero `int32`, delete the key on `0`. -/
def Item.SetInt32 (k : Item) (key : String) (v : Int) : Item :=
  if v ≠ 0 then ⟨attrInsert k.attr key (.int32A v)⟩
  else ⟨attrErase k.attr key⟩

/-- `Item.SetData`: store any non-nil byte slice (empty included), delete the
data key on a nil slice. -/
def Item.SetData (k : Item) (b : GoBytes) : Item :=
  match b with
  | some l => ⟨attrInsert k.attr DataKey (.bytes (some l))⟩
  | none => ⟨attrErase k.attr DataKey⟩

/-- `Item.SetSecClass`. -/
def Item.SetSecClass (k : Item) (sc : SecClass) : Item :=
  ⟨attrInsert k.attr SecClassKey (.cfRef (secClassTypeRef sc))⟩

/-- `Item.SetService`. -/
def Item.SetService (k : Item) (s : String) : Item :=
  k.SetString ServiceKey s

/-- `Item.SetAccount`. -/
def Item.SetAccount (k : Item) (a : String) : Item :=
  k.SetString AccountKey a

/-- `Item.SetLabel`. -/
def Item.SetLabel (k : Item) (l : String) : Item :=
  k.SetString LabelKey l

/-- `Item.SetAccessGroup`. -/
def Item.SetAccessGroup (k : Item) (ag : String) : Item :=
  k.SetString AccessGroupKey ag

/-- `Item.SetMatchLimit`: a non-default limit maps to its external sentinel,
the default deletes the key. -/
def Item.SetMatchLimit (k : Item) (ml : MatchLimit) : Item :=
  if ml ≠ .matchLimitDefault then ⟨attrInsert k.attr MatchLimitKey (.cfRef (matchTypeRef ml))⟩
  else ⟨attrErase k.attr MatchLimitKey⟩

/-- `Item.SetReturnData`: always stored, even when `false`. -/
def Item.SetReturnData (k : Item) (b : Bool) : Item :=
  ⟨attrInsert k.attr ReturnDataKey (.boolean b)⟩

/-! ## Attribute dictionary builder (corefoundation.go) -/

/-- The per-value dispatch of `ConvertMapToCFDictionary`'s `switch val :=
i.(type)`.  Returns the converted reference together with a flag telling
whether the reference was freshly created by this call (and therefore
registered with `defer Release(...)` in the source): pass-through `CFTypeRef`
values and the shared boolean singletons are not fresh; `int32`, `[]byte`,
`string` and `Convertable` conversions are.  Error strings carry the source's
`fmt.Errorf` wrapping. -/
def convValue : AttrValue → Except String (CFType × Bool)
  | .cfRef r => .ok (r, false)
  | .boolean b => .ok (.boolean b, false)
  | .int32A n => .ok (Int32ToCFNumber n, true)
  | .bytes b =>
    match BytesToCFData (b.getD []) with
    | .error e => .error ("failed to convert bytes to CFData: " ++ e)
    | .ok d => .ok (d, true)
  | .str s =>
    match StringToCFString s with
    | .error e => .error ("failed to convert string to CFString: " ++ e)
    | .ok r => .ok (r, true)
  | .convertable c =>
    match c with
    | .error e => .error ("failed to convert value: " ++ e)
    | .ok r => .ok (r, true)

/-- `MapToCFDictionary` (corefoundation.go): packs converted key/value pairs
into a `CFDictionary` (the `CFDictionaryCreate` failure branch is not
representable in this model). -/
def MapToCFDictionary (m : List (CFType × CFType)) : CFType :=
  .dict m

/-- The entry loop of `ConvertMapToCFDictionary`.  `acc` is the map `m` under
construction and `defs` the references registered so far with `defer
Release(...)`; the second component of the result is the full list of
references released when the function returns (Go defers run on every exit
path, early error returns included). -/
def cmLoop : List (String × AttrValue) → List (CFType × CFType) → List CFType →
    Except String (List (CFType × CFType)) × List CFType
  | [], acc, defs => (.ok acc, defs)
  | (key, v) :: rest, acc, defs =>
    match convValue v with
    | .error e => (.error e, defs)
    | .ok (vref, fresh) =>
      let defs1 := if fresh then vref :: defs else defs
      match StringToCFString key with
      | .error e => (.error e, defs1)
      | .ok kref => cmLoop rest ((kref, vref) :: acc) (kref :: defs1)

/-- `ConvertMapToCFDictionary` (corefoundation.go): converts a whole attribute
map into a `CFDictionary`.  First component: the Go `(CFDictionaryRef, error)`
result (the error case carries the source's null dictionary return); second
component: every reference released by the deferred `Release` calls of this
invocation. -/
def ConvertMapToCFDictionary (attr : List (String × AttrValue)) :
    Except String CFType × List CFType :=
  match cmLoop attr [] [] with
  | (.error e, defs) => (.error e, defs)
  | (.ok m, defs) => (.ok (MapToCFDictionary m), defs)

/-- The external references freshly converted by `ConvertMapToCFDictionary`
before its first conversion failure (all of them when no conversion fails):
for each fully processed entry, the fresh value reference (if the value was
converted rather than passed through) and the key reference; for an entry
whose key conversion fails, the already-converted fresh value reference. -/
def freshConvertedRefs : List (String × AttrValue) → List CFType
  | [] => []
  | (key, v) :: rest =>
    match convValue v with
    | .error _ => []
    | .ok (vref, fresh) =>
      match StringToCFString key with
      | .error _ => if fresh then [vref] else []
      | .ok kref => (if fresh then [vref] else []) ++ kref :: freshConvertedRefs rest

/-- `true` when some entry of the map fails to convert (its value under
`convValue`, or its key under `StringToCFString`). -/
def anyEntryFails (attr : List (String × AttrValue)) : Bool :=
  attr.any (fun p => isErrE (convValue p.2) || isErrE (StringToCFString p.1))

/-! ## Store errors (keychain.go) -/

/-- `errSecSuccess`. -/
def errSecSuccess : Int := 0

/-- `errSecItemNotFound` (the `ErrorItemNotFound` status). -/
def errSecItemNotFound : Int := -25300

/-- An error produced by the keychain layer: `status` is a store status code
wrapped as the `Error` type of keychain.go, `msg` a `fmt.Errorf` error, and
`panicked` models a Go panic aborting the call (it is not a returned error
value). -/
inductive KError where
  | status (code : Int)
  | msg (s : String)
  | panicked (s : String)
  deriving DecidableEq

/-- `true` exactly on the `panicked` constructor. -/
def isPanicK : KError → Bool
  | .panicked _ => true
  | _ => false

/-- `checkError` (keychain.go): success maps to no error, any other status to
the wrapped status code. -/
def checkError (errCode : Int) : Option KError :=
  if errCode = errSecSuccess then none else some (.status errCode)

/-- `fmt.Errorf("...: %w", err)` wrapping of a keychain-layer error: message
errors get the prefix; a panic is not an error return and propagates
unchanged (the `status` branch is unreachable from `convertResult`). -/
def wrapK (pre : String) : KError → KError
  | .msg m => .msg (pre ++ m)
  | .panicked m => .panicked m
  | .status c => .status c

/-! ## Result mapper (keychain.go) -/

/-- `QueryResult` (keychain.go): every field a query might return; fields not
populated keep their Go zero value. -/
structure QueryResult where
  Service : String := ""
  Server : String := ""
  Protocol : String := ""
  AuthenticationType : String := ""
  Port : Int := 0
  Path : String := ""
  Account : String := ""
  AccessGroup : String := ""
  Label : String := ""
  Description : String := ""
  Comment : String := ""
  Data : GoBytes := none
  CreationDate : GoTime := (0 : Int)
  ModificationDate : GoTime := (0 : Int)

/-- `attrKey` (keychain.go): the native text form of an attribute-key
reference. -/
def attrKey (ref : CFType) : String :=
  CFStringToString ref

/-- The attribute keys handled by `convertResult`'s switch, in source order. -/
def knownKeys : List String :=
  [ServiceKey, ServerKey, ProtocolKey, AuthenticationTypeKey, PortKey, PathKey,
   AccountKey, AccessGroupKey, LabelKey, DescriptionKey, CommentKey, DataKey,
   CreationDateKey, ModificationDateKey]

/-- One iteration of `convertResult`'s loop over the response dictionary: the
switch on `attrKey(k)`.  The `PortKey` branch decodes through
`CFNumberToInterface` and type-asserts `int32`, failing with the source's
type-mismatch error otherwise; a `none` decode is the numeric decoder's panic.
A key matching no case leaves the result untouched. -/
def convertStep (result : QueryResult) (k v : CFType) : Except KError QueryResult :=
  if attrKey k = ServiceKey then .ok { result with Service := CFStringToString v }
  else if attrKey k = ServerKey then .ok { result with Server := CFStringToString v }
  else if attrKey k = ProtocolKey then .ok { result with Protocol := CFStringToString v }
  else if attrKey k = AuthenticationTypeKey then
    .ok { result with AuthenticationType := CFStringToString v }
  else if attrKey k = PortKey then
    match CFNumberToInterface v with
    | none => .error (.panicked "Unknown CFNumber type")
    | some val =>
      match val with
      | .int32V port => .ok { result with Port := port }
      | _ => .error (.msg ("expected int32 for PortKey, got " ++ goTypeName val))
  else if attrKey k = PathKey then .ok { result with Path := CFStringToString v }
  else if attrKey k = AccountKey then .ok { result with Account := CFStringToString v }
  else if attrKey k = AccessGroupKey then .ok { result with AccessGroup := CFStringToString v }
  else if attrKey k = LabelKey then .ok { result with Label := CFStringToString v }
  else if attrKey k = DescriptionKey then .ok { result with Description := CFStringToString v }
  else if attrKey k = CommentKey then .ok { result with Comment := CFStringToString v }
  else if attrKey k = DataKey then .ok { result with Data := some (CFDataToBytes v) }
  else if attrKey k = CreationDateKey then .ok { result with CreationDate := CFDateToTime v }
  else if attrKey k = ModificationDateKey then
    .ok { result with ModificationDate := CFDateToTime v }
  else .ok result

/-- The entry loop of `convertResult`. -/
def convertLoop (result : QueryResult) : List (CFType × CFType) → Except KError QueryResult
  | [] => .ok result
  | (k, v) :: rest =>
    match convertStep result k v with
    | .error e => .error e
    | .ok result1 => convertLoop result1 rest

/-- `convertResult` (keychain.go): folds the response dictionary's entries
over a zero-valued `QueryResult`. -/
def convertResult (entries : List (CFType × CFType)) : Except KError QueryResult :=
  convertLoop {} entries

/-! ## Query engine (keychain.go) -/

/-- The outcome of one `SecItemCopyMatching` call, supplied by the opaque
store: the `OSStatus` code and the produced result reference (`none` models a
null `CFTypeRef`). -/
def StoreResponse : Type := Int × Option CFType

/-- `QueryItemRef` (keychain.go): converts the query item and interprets the
store outcome; an `ErrorItemNotFound` status is normalized to a null
reference with no error before `checkError` runs. -/
def QueryItemRef (item : Item) (resp : StoreResponse) : Except KError (Option CFType) :=
  match (ConvertMapToCFDictionary item.attr).1 with
  | .error e => .error (.msg e)
  | .ok _ =>
    if resp.1 = errSecItemNotFound then .ok none
    else
      match checkError resp.1 with
      | some e => .error e
      | none => .ok resp.2

/-- The element loop of `QueryItem`'s array case: every element must be a
dictionary and convert successfully; conversion errors are wrapped, a non-
dictionary element yields the source's reference-return guidance error. -/
def queryArrayLoop : List CFType → Except KError (List QueryResult)
  | [] => .ok []
  | ref :: rest =>
    match ref with
    | .dict entries =>
      match convertResult entries with
      | .error e => .error (wrapK "failed to convert CFDictionary to QueryResult: " e)
      | .ok item =>
        match queryArrayLoop rest with
        | .error e => .error e
        | .ok items => .ok (item :: items)
    | _ => .error (.msg "invalid result type (If you SetReturnRef(true) you should use QueryItemRef directly)")

/-- `QueryItem` (keychain.go): runs `QueryItemRef`, normalizes a null
reference to an empty result list, then dispatches on the response's runtime
type tag (array of dictionaries, single dictionary, raw data, otherwise a
shape error). -/
def QueryItem (item : Item) (resp : StoreResponse) : Except KError (List QueryResult) :=
  match QueryItemRef item resp with
  | .error e => .error e
  | .ok none => .ok []
  | .ok (some resultsRef) =>
    match resultsRef with
    | .array elems => queryArrayLoop elems
    | .dict entries =>
      match convertResult entries with
      | .error e => .error (wrapK "failed to convert CFDictionary to QueryResult: " e)
      | .ok item1 => .ok [item1]
    | .data b => .ok [{ Data := some b }]
    | _ => .error (.msg ("invalid result type: " ++ CFTypeDescription resultsRef))

/-- `DeleteItem` (keychain.go): converts the selector and returns the checked
store status of `SecItemDelete` (supplied as `status`); `none` is Go's nil
error. -/
def DeleteItem (item : Item) (status : Int) : Option KError :=
  match (ConvertMapToCFDictionary item.attr).1 with
  | .error e => some (.msg ("failed to convert item to CFDictionary: " ++ e))
  | .ok _ => checkError status

/-- `UpdateItem` (keychain.go): converts both items and returns the checked
store status of `SecItemUpdate` (supplied as `status`). -/
def UpdateItem (queryItem updateItem : Item) (status : Int) : Option KError :=
  match (ConvertMapToCFDictionary queryItem.attr).1 with
  | .error e => some (.msg ("failed to convert query item attributes to CFDictionary: " ++ e))
  | .ok _ =>
    match (ConvertMapToCFDictionary updateItem.attr).1 with
    | .error e => some (.msg ("failed to convert update item attributes to CFDictionary: " ++ e))
    | .ok _ => checkError status

/-- The query item `GetGenericPassword` builds: generic-password class, the
four string selectors, one-result match limit, data-only return. -/
def gppQuery (service account label accessGroup : String) : Item :=
  ((((((NewItem.SetSecClass .genericPassword).SetService service).SetAccount
      account).SetLabel label).SetAccessGroup accessGroup).SetMatchLimit
      .matchLimitOne).SetReturnData true

/-- `GetGenericPassword` (keychain.go): one-result convenience query; more
than one matching record is an error, exactly one yields its data, none
yields nil data and nil error. -/
def GetGenericPassword (service account label accessGroup : String)
    (resp : StoreResponse) : Except KError GoBytes :=
  match QueryItem (gppQuery service account label accessGroup) resp with
  | .error e => .error e
  | .ok results =>
    if results.length > 1 then .error (.msg "too many results")
    else if results.length = 1 then .ok (results.headD {}).Data
    else .ok none

/-! ## Helper lemmas -/

theorem attrLookup_attrErase (m : List (String × AttrValue)) (key : String) :
    attrLookup (attrErase m key) key = none := by
  simp only [attrLookup, attrErase, Option.map_eq_none', List.find?_eq_none,
    List.mem_filter]
  intro p hp
  simpa using hp.2

theorem attrLookup_attrInsert (m : List (String × AttrValue)) (key : String) (v : AttrValue) :
    attrLookup (attrInsert m key v) key = some v := by
  simp [attrInsert, attrLookup, List.find?_cons]

theorem cmLoop_defs_subset (l : List (String × AttrValue)) :
    ∀ acc defs, defs ⊆ (cmLoop l acc defs).2 := by
  induction l with
  | nil => intro acc defs; simp [cmLoop]
  | cons p rest ih =>
    intro acc defs
    obtain ⟨key, v⟩ := p
    simp only [cmLoop]
    cases hv : convValue v with
    | error e => simp
    | ok pr =>
      obtain ⟨vref, fresh⟩ := pr
      cases hk : StringToCFString key with
      | error e =>
        cases fresh with
        | false => simp
        | true => simp [List.subset_cons_self]
      | ok kref =>
        refine List.Subset.trans ?_ (ih ((kref, vref) :: acc) (kref :: if fresh then vref :: defs else defs))
        cases fresh with
        | false => simp [List.subset_cons_self]
        | true =>
          refine List.Subset.trans (List.subset_cons_self _ _) (List.cons_subset_cons _ ?_)
          simp [List.subset_cons_self]

theorem cmLoop_fresh_subset (l : List (String × AttrValue)) :
    ∀ acc defs, freshConvertedRefs l ⊆ (cmLoop l acc defs).2 := by
  induction l with
  | nil => intro acc defs; simp [freshConvertedRefs]
  | cons p rest ih =>
    intro acc defs
    obtain ⟨key, v⟩ := p
    simp only [cmLoop, freshConvertedRefs]
    cases hv : convValue v with
    | error e => simp
    | ok pr =>
      obtain ⟨vref, fresh⟩ := pr
      cases hk : StringToCFString key with
      | error e =>
        cases fresh with
        | false => simp
        | true => simp
      | ok kref =>
        intro x hx
        rcases List.mem_append.mp hx with hx1 | hx2
        · cases fresh with
          | false => simp at hx1
          | true =>
            have hxv : x = vref := by simpa using hx1
            refine cmLoop_defs_subset rest _ _ ?_
            simp [hxv]
        · rcases List.mem_cons.mp hx2 with hxk | hxr
          · refine cmLoop_defs_subset rest _ _ ?_
            simp [hxk]
          · exact ih _ _ hxr

theorem cmLoop_err_of_anyFails (l : List (String × AttrValue)) :
    ∀ acc defs, anyEntryFails l = true → isErrE (cmLoop l acc defs).1 = true := by
  induction l with
  | nil => intro acc defs h; simp [anyEntryFails] at h
  | cons p rest ih =>
    intro acc defs h
    obtain ⟨key, v⟩ := p
    simp only [cmLoop]
    cases hv : convValue v with
    | error e => simp [isErrE]
    | ok pr =>
      obtain ⟨vref, fresh⟩ := pr
      cases hk : StringToCFString key with
      | error e => simp [isErrE]
      | ok kref =>
        refine ih _ _ ?_
        simp only [anyEntryFails, List.any_cons, hv, hk, isErrE, Bool.or_self, Bool.false_or] at h
        exact h

theorem convertStep_unknown (result : QueryResult) (k v : CFType)
    (hk : attrKey k ∉ knownKeys) : convertStep result k v = .ok result := by
  simp only [knownKeys, List.mem_cons, List.not_mem_nil, or_false] at hk
  push_neg at hk
  obtain ⟨h1, h2, h3, h4, h5, h6, h7, h8, h9, h10, h11, h12, h13, h14⟩ := hk
  unfold convertStep
  rw [if_neg h1, if_neg h2, if_neg h3, if_neg h4, if_neg h5, if_neg h6, if_neg h7,
    if_neg h8, if_neg h9, if_neg h10, if_neg h11, if_neg h12, if_neg h13, if_neg h14]

theorem convertLoop_unknown_middle (k v : CFType) (hk : attrKey k ∉ knownKeys)
    (xs : List (CFType × CFType)) :
    ∀ (result : QueryResult) (ys : List (CFType × CFType)),
      convertLoop result (xs ++ (k, v) :: ys) = convertLoop result (xs ++ ys) := by
  induction xs with
  | nil =>
    intro result ys
    simp only [List.nil_append, convertLoop, convertStep_unknown result k v hk]
  | cons x rest ih =>
    intro result ys
    obtain ⟨k1, v1⟩ := x
    simp only [List.cons_append, convertLoop]
    cases hs : convertStep result k1 v1 with
    | error e => rfl
    | ok result1 => exact ih result1 ys

theorem queryArrayLoop_nondict (e : CFType) (hd : isDictB e = false) :
    ∀ elems : List CFType, e ∈ elems → ∃ err, queryArrayLoop elems = .error err := by
  intro elems
  induction elems with
  | nil => intro he; cases he
  | cons a rest ih =>
    intro he
    rcases List.mem_cons.mp he with hhead | htail
    · subst hhead
      cases e with
      | dict entries => simp [isDictB] at hd
      | string s => exact ⟨_, rfl⟩
      | data b => exact ⟨_, rfl⟩
      | number ty val => exact ⟨_, rfl⟩
      | boolean b => exact ⟨_, rfl⟩
      | array elems1 => exact ⟨_, rfl⟩
      | date t => exact ⟨_, rfl⟩
      | konst n => exact ⟨_, rfl⟩
    · cases a with
      | dict entries =>
        simp only [queryArrayLoop]
        cases hc : convertResult entries with
        | error e1 => exact ⟨_, rfl⟩
        | ok q =>
          obtain ⟨err, herr⟩ := ih htail
          rw [herr]
          exact ⟨err, rfl⟩
      | string s => exact ⟨_, rfl⟩
      | data b => exact ⟨_, rfl⟩
      | number ty val => exact ⟨_, rfl⟩
      | boolean b => exact ⟨_, rfl⟩
      | array elems1 => exact ⟨_, rfl⟩
      | date t => exact ⟨_, rfl⟩
      | konst n => exact ⟨_, rfl⟩

theorem cmcd_snd_eq (attr : List (String × AttrValue)) :
    (ConvertMapToCFDictionary attr).2 = (cmLoop attr [] []).2 := by
  unfold ConvertMapToCFDictionary
  cases h : cmLoop attr [] [] with
  | mk fst snd => cases fst <;> simp

theorem cmcd_fst_err (attr : List (String × AttrValue)) :
    isErrE (ConvertMapToCFDictionary attr).1 = isErrE (cmLoop attr [] []).1 := by
  unfold ConvertMapToCFDictionary
  cases h : cmLoop attr [] [] with
  | mk fst snd => cases fst <;> simp [isErrE]

theorem queryItemRef_success (item : Item) (ref : Option CFType)
    (h : isOkE (ConvertMapToCFDictionary item.attr).1 = true) :
    QueryItemRef item (errSecSuccess, ref) = .ok ref := by
  cases hc : (ConvertMapToCFDictionary item.attr).1 with
  | error e => rw [hc] at h; simp [isOkE] at h
  | ok d =>
    simp only [QueryItemRef, hc]
    rw [if_neg (by decide)]
    rfl

theorem convertStep_port_mismatch (result : QueryResult) (v : CFType) (g : GoValue)
    (hdec : CFNumberToInterface v = some g) (hg : isInt32G g = false) :
    convertStep result (.string PortKey) v =
      .error (.msg ("expected int32 for PortKey, got " ++ goTypeName g)) := by
  unfold convertStep
  rw [if_neg (by decide), if_neg (by decide), if_neg (by decide), if_neg (by decide),
    if_pos (by decide)]
  rw [hdec]
  cases g with
  | int32V n => simp [isInt32G] at hg
  | int8V n => rfl
  | int16V n => rfl
  | int64V n => rfl
  | intV n => rfl
  | byteV n => rfl
  | float32V n => rfl
  | float64V n => rfl

/-! ## The claims -/

/-- C1: for every query item, a store outcome of "not found" on Query is
normalized to success with an empty result list and a nil error (`QueryItemRef`
returns a null reference and no error, `QueryItem` an empty list and no
error), whereas a "not found" outcome on Update or Delete is returned to the
caller as the `ErrorItemNotFound` error value. -/
theorem c1_query_notFound_ok_update_delete_error :
    ∀ (item : Item) (ref : Option CFType),
      isOkE (ConvertMapToCFDictionary item.attr).1 = true →
      QueryItemRef item (errSecItemNotFound, ref) = .ok none ∧
      QueryItem item (errSecItemNotFound, ref) = .ok [] ∧
      DeleteItem item errSecItemNotFound = some (.status errSecItemNotFound) ∧
      UpdateItem item item errSecItemNotFound = some (.status errSecItemNotFound) := by
  intro item ref h
  cases hc : (ConvertMapToCFDictionary item.attr).1 with
  | error e => rw [hc] at h; simp [isOkE] at h
  | ok d =>
    refine ⟨?_, ?_, ?_, ?_⟩
    · simp [QueryItemRef, hc]
    · simp [QueryItem, QueryItemRef, hc]
    · simp only [DeleteItem, hc]
      decide
    · simp only [UpdateItem, hc]
      decide

/-- C1 witness: the empty item at a "not found" store outcome. -/
theorem c1_witness :
    QueryItemRef NewItem (errSecItemNotFound, none) = .ok none ∧
    QueryItem NewItem (errSecItemNotFound, none) = .ok [] ∧
    DeleteItem NewItem errSecItemNotFound = some (.status errSecItemNotFound) ∧
    UpdateItem NewItem NewItem errSecItemNotFound = some (.status errSecItemNotFound) :=
  c1_query_notFound_ok_update_delete_error NewItem none (by rfl)

/-- C2: the value bridge round-trips exactly: decoding the encoded external
string yields the string back, decoding the encoded external data yields the
byte sequence back (the empty sequence included), and decoding the external
number produced by `Int32ToCFNumber` via `CFNumberToInterface` yields the
`int32` unchanged. -/
theorem c2_value_bridge_roundtrip :
    ∀ (s : String) (b : List UInt8) (n : Int),
      s.utf8ByteSize ≤ maxUInt32 → b.length ≤ maxUInt32 →
      (StringToCFString s).map CFStringToString = .ok s ∧
      (BytesToCFData b).map CFDataToBytes = .ok b ∧
      CFNumberToInterface (Int32ToCFNumber n) = some (.int32V n) := by
  intro s b n hs hb
  refine ⟨?_, ?_, rfl⟩
  · unfold StringToCFString
    rw [if_neg (Nat.not_lt.mpr hs)]
    rfl
  · unfold BytesToCFData
    rw [if_neg (Nat.not_lt.mpr hb)]
    rfl

/-- C2 witness: a concrete string, the empty byte sequence, and a concrete
`int32`. -/
theorem c2_witness :
    (StringToCFString "keychain").map CFStringToString = .ok "keychain" ∧
    (BytesToCFData []).map CFDataToBytes = .ok [] ∧
    CFNumberToInterface (Int32ToCFNumber 7) = some (.int32V 7) :=
  c2_value_bridge_roundtrip "keychain" [] 7 (by decide) (by decide)

/-- C3: setting a text, bytes, or int attribute to its zero value (empty
string, nil bytes, zero int) removes the key from the Item's attribute map:
afterwards the map has no entry for that key, never a sentinel zero value. -/
theorem c3_zero_value_removes_key :
    ∀ (item : Item) (key : String),
      attrLookup (item.SetString key "").attr key = none ∧
      attrLookup (item.SetInt32 key 0).attr key = none ∧
      attrLookup (item.SetData none).attr DataKey = none := by
  intro item key
  exact ⟨attrLookup_attrErase _ _, attrLookup_attrErase _ _, attrLookup_attrErase _ _⟩

/-- C4: if the conversion of any single key or value fails,
`ConvertMapToCFDictionary` returns an error with no (partial) collection, and
every external value freshly converted during that call is among the
references released by its deferred `Release` calls. -/
theorem c4_conversion_failure_aborts_releases :
    ∀ attr : List (String × AttrValue),
      anyEntryFails attr = true →
      isErrE (ConvertMapToCFDictionary attr).1 = true ∧
      freshConvertedRefs attr ⊆ (ConvertMapToCFDictionary attr).2 := by
  intro attr h
  constructor
  · rw [cmcd_fst_err]
    exact cmLoop_err_of_anyFails attr [] [] h
  · rw [cmcd_snd_eq]
    exact cmLoop_fresh_subset attr [] []

/-- A concrete attribute map whose second entry fails to convert after the
first entry has produced a fresh value and a fresh key reference. -/
def c4AttrW : List (String × AttrValue) :=
  [("a", .str "x"), ("b", .convertable (.error "boom"))]

/-- C4 witness: on `c4AttrW` the build fails and the two references converted
for the first entry are released. -/
theorem c4_witness :
    anyEntryFails c4AttrW = true ∧
    isErrE (ConvertMapToCFDictionary c4AttrW).1 = true ∧
    freshConvertedRefs c4AttrW ⊆ (ConvertMapToCFDictionary c4AttrW).2 := by
  have h := c4_conversion_failure_aborts_releases c4AttrW (by decide)
  exact ⟨by decide, h.1, h.2⟩

/-- Spec-side decoder map for the amended C5: the native Go type is chosen by
the declared numeric subtype's width alone (8/16/32/64-bit integer, 32/64-bit
float, platform-native `int`, `byte` for the C char subtype), independent of
the stored value; the subtype the switch does not recognize is fatal
(`none`). -/
def decodeNumberSpec : CFNumberType → Int → Option GoValue
  | .kSInt8, v => some (.int8V v)
  | .kSInt16, v => some (.int16V v)
  | .kSInt32, v => some (.int32V v)
  | .kSInt64, v => some (.int64V v)
  | .kFloat32, v => some (.float32V v)
  | .kFloat64, v => some (.float64V v)
  | .kChar, v => some (.byteV v)
  | .kShort, v => some (.int16V v)
  | .kInt, v => some (.int32V v)
  | .kLong, v => some (.intV v)
  | .kLongLong, v => some (.int64V v)
  | .kFloat, v => some (.float32V v)
  | .kDouble, v => some (.float64V v)
  | .kCFIndex, v => some (.intV v)
  | .kNSInteger, v => some (.intV v)
  | .kCGFloat, _ => none

/-- C5 counterexample: the claim says the decoder selects the narrowest native
type that exactly represents the stored value; but the value `0` stored with
declared subtype `kCFNumberSInt64Type` decodes to `int64(0)`, not to the
narrower `int8(0)` that also represents it exactly. -/
theorem c5_counterexample :
    CFNumberToInterface (CFType.number .kSInt64 0) = some (.int64V 0) ∧
    GoValue.int64V 0 ≠ GoValue.int8V 0 :=
  ⟨rfl, by decide⟩

/-- C5 (amended): the numeric decoder branches on the value's own declared
numeric subtype and selects the native type matching that declared subtype's
width — independent of the stored value and not one fixed width — and an
unrecognized subtype is fatal (panic), with no silent fallback. -/
theorem c5_decoder_by_declared_subtype :
    (∀ (ty : CFNumberType) (v : Int),
      CFNumberToInterface (CFType.number ty v) = decodeNumberSpec ty v) ∧
    CFNumberToInterface (CFType.number .kSInt8 5) ≠
      CFNumberToInterface (CFType.number .kSInt64 5) :=
  ⟨fun ty v => by cases ty <;> rfl, by decide⟩

/-- C6: whenever the underlying query of the one-result convenience lookup
yields more than one matching record, `GetGenericPassword` fails with the
"too many results" error and returns no data. -/
theorem c6_ambiguous_lookup_fails :
    ∀ (service account label accessGroup : String) (resp : StoreResponse)
      (results : List QueryResult),
      QueryItem (gppQuery service account label accessGroup) resp = .ok results →
      results.length > 1 →
      GetGenericPassword service account label accessGroup resp =
        .error (.msg "too many results") := by
  intro s a l g resp results hq hlen
  simp only [GetGenericPassword, hq]
  rw [if_pos hlen]

/-- A store response carrying two matching records. -/
def c6Resp : StoreResponse := (errSecSuccess, some (.array [.dict [], .dict []]))

/-- C6 witness: two matching records make the convenience lookup fail. -/
theorem c6_witness :
    GetGenericPassword "svc" "acct" "" "" c6Resp = .error (.msg "too many results") :=
  c6_ambiguous_lookup_fails "svc" "acct" "" "" c6Resp [{}, {}] (by rfl) (by decide)

/-- C7 counterexample: in an array response that does contain a non-dictionary
element, `QueryItem` does not always return an error value: when an earlier
dictionary element's port value carries the unrecognized numeric subtype
`kCFNumberCGFloatType`, the numeric decoder panics (modelled by
`KError.panicked`, which is an aborted call, not a returned error). -/
theorem c7_counterexample :
    QueryItem NewItem (errSecSuccess,
        some (.array [.dict [(CFType.string PortKey, CFType.number .kCGFloat 0)],
          .string "x"])) =
      .error (.panicked "Unknown CFNumber type") ∧
    CFType.string "x" ∈
      [CFType.dict [(CFType.string PortKey, CFType.number .kCGFloat 0)], CFType.string "x"] ∧
    isDictB (CFType.string "x") = false ∧
    isPanicK (KError.panicked "Unknown CFNumber type") = true :=
  ⟨rfl, List.Mem.tail _ (List.Mem.head _), rfl, rfl⟩

/-- C7 (amended): a non-null query response whose runtime type tag is neither
array, dictionary, nor raw data makes `QueryItem` return the shape error
(without panicking or crashing); and within an array response, an element that
is not a dictionary guarantees `QueryItem` never yields a (partial) result
list: it ends in an error — the returned reference-return guidance error, or,
when decoding an earlier dictionary element hits the numeric decoder's panic
on an unrecognized subtype, that panic. -/
theorem c7_shape_error_amended :
    ∀ (item : Item) (r : CFType) (elems : List CFType) (e : CFType),
      isOkE (ConvertMapToCFDictionary item.attr).1 = true →
      (CFGetTypeID r ≠ .arrayID → CFGetTypeID r ≠ .dictID → CFGetTypeID r ≠ .dataID →
        QueryItem item (errSecSuccess, some r) =
          .error (.msg ("invalid result type: " ++ CFTypeDescription r))) ∧
      (e ∈ elems → isDictB e = false →
        ∃ err, QueryItem item (errSecSuccess, some (.array elems)) = .error err) := by
  intro item r elems e h
  constructor
  · intro ha hd hdata
    simp only [QueryItem, queryItemRef_success item (some r) h]
    cases r with
    | array es => exact absurd rfl ha
    | dict es => exact absurd rfl hd
    | data b => exact absurd rfl hdata
    | string s => rfl
    | number ty val => rfl
    | boolean b => rfl
    | date t => rfl
    | konst n => rfl
  · intro he hde
    obtain ⟨err, herr⟩ := queryArrayLoop_nondict e hde elems he
    refine ⟨err, ?_⟩
    simp only [QueryItem, queryItemRef_success item (some (.array elems)) h]
    exact herr

/-- C7 witness: a boolean response takes the shape-error branch, and an array
holding a lone string element yields an error. -/
theorem c7_witness :
    QueryItem NewItem (errSecSuccess, some (.boolean true)) =
      .error (.msg "invalid result type: CFBoolean") ∧
    ∃ err, QueryItem NewItem (errSecSuccess, some (.array [.string "x"])) = .error err := by
  have h := c7_shape_error_amended NewItem (.boolean true) [.string "x"] (.string "x") (by rfl)
  exact ⟨h.1 (by decide) (by decide) (by decide), h.2 (List.Mem.head _) (by rfl)⟩

/-- C8: the Port field is decoded as a 32-bit integer with a type-mismatch
check: a port value whose decode yields a native type other than `int32`
makes the per-entry step, and `convertResult` on a dictionary carrying that
port entry, fail with the type-mismatch error instead of coercing. -/
theorem c8_port_decode_type_mismatch :
    (∀ (result : QueryResult) (v : CFType) (g : GoValue),
      CFNumberToInterface v = some g → isInt32G g = false →
      convertStep result (.string PortKey) v =
        .error (.msg ("expected int32 for PortKey, got " ++ goTypeName g))) ∧
    (∀ (v : CFType) (g : GoValue) (rest : List (CFType × CFType)),
      CFNumberToInterface v = some g → isInt32G g = false →
      convertResult ((CFType.string PortKey, v) :: rest) =
        .error (.msg ("expected int32 for PortKey, got " ++ goTypeName g))) := by
  constructor
  · exact convertStep_port_mismatch
  · intro v g rest hdec hg
    simp only [convertResult, convertLoop, convertStep_port_mismatch {} v g hdec hg]

/-- C8 witness: a port value of declared subtype `kCFNumberSInt64Type` decodes
to `int64` and is rejected. -/
theorem c8_witness :
    convertStep {} (.string PortKey) (.number .kSInt64 7) =
      .error (.msg "expected int32 for PortKey, got int64") ∧
    convertResult [(CFType.string PortKey, CFType.number .kSInt64 7)] =
      .error (.msg "expected int32 for PortKey, got int64") := by
  have h := c8_port_decode_type_mismatch
  exact ⟨h.1 {} _ (.int64V 7) rfl rfl, h.2 _ (.int64V 7) [] rfl rfl⟩

/-- C9: response-dictionary keys that are not among the known attribute keys
are ignored by `convertResult`: the per-entry step returns the result record
unchanged with no error, and deleting such an entry from a response leaves
`convertResult`'s outcome unchanged, so fields not populated by known keys
keep their zero values. -/
theorem c9_unknown_keys_ignored :
    (∀ (result : QueryResult) (k v : CFType),
      attrKey k ∉ knownKeys → convertStep result k v = .ok result) ∧
    (∀ (xs ys : List (CFType × CFType)) (k v : CFType),
      attrKey k ∉ knownKeys →
      convertResult (xs ++ (k, v) :: ys) = convertResult (xs ++ ys)) := by
  constructor
  · exact convertStep_unknown
  · intro xs ys k v hk
    exact convertLoop_unknown_middle k v hk xs {} ys

/-- C9 witness: an unknown key leaves the step and the whole conversion
untouched. -/
theorem c9_witness :
    convertStep {} (.string "zzz") (.string "v") = .ok {} ∧
    convertResult [(CFType.string "zzz", CFType.string "v")] = convertResult [] := by
  have h := c9_unknown_keys_ignored
  exact ⟨h.1 {} _ _ (by decide), h.2 [] [] _ _ (by decide)⟩

/-- C10: `SetData` removes the data key only for a nil slice; every non-nil
byte slice, the empty slice included, is stored, so the attribute map keeps an
entry for the data key. -/
theorem c10_setData_nil_vs_empty :
    ∀ (item : Item) (l : List UInt8),
      attrLookup (item.SetData (some l)).attr DataKey = some (.bytes (some l)) ∧
      attrLookup (item.SetData none).attr DataKey = none := by
  intro item l
  exact ⟨attrLookup_attrInsert _ _ _, attrLookup_attrErase _ _⟩
